import Mathlib

/-!
Verification development for a FastAPI/SQLAlchemy contacts backend
(user auth with JWT access/refresh tokens, per-user contact book with an
"upcoming birthdays" query).

The embedding below is a shallow model of the repository's code:
* `src/database/models.py` — the `User` and `Contact` tables and their
  uniqueness constraints;
* `src/repository/contacts.py` — `ContactRepository`;
* `src/repository/users.py` — `UserRepository`;
* `src/services/auth.py` — token issuance (`create_token`,
  `create_email_token`), `get_current_user`, the role gates and
  `verify_refresh_token`.

Database tables are modelled as lists of records; SQLAlchemy queries
become list filtering/lookups; a function that can raise an uncaught
Python exception returns an explicit outcome constructor naming the
exception.  `datetime.date.today()` and `datetime.now(UTC)` are external
inputs and appear as explicit parameters.
-/

namespace Hw12

/-- Role enum from `src/database/models.py` (`UserRole`). -/
inductive UserRole where
  | user
  | moderator
  | admin
deriving DecidableEq, Repr

/-- Row of the `users` table (`src/database/models.py`, class `User`).
`id` is the primary key; `username` and `email` carry a `unique=True`
constraint; `refresh_token` and `avatar` are nullable. -/
structure User where
  id : Nat
  username : String
  email : String
  hashed_password : String
  avatar : Option String
  confirmed : Bool
  role : UserRole
  refresh_token : Option String
deriving DecidableEq, Repr

/-- A calendar date as Python's `datetime.date` (year, month, day). -/
structure PyDate where
  year : Nat
  month : Nat
  day : Nat
deriving DecidableEq, Repr

/-- Gregorian leap-year rule used by Python's `datetime`. -/
def isLeapYear (y : Nat) : Bool :=
  y % 4 == 0 && (y % 100 != 0 || y % 400 == 0)

/-- Number of days in a month of a given year. -/
def daysInMonth (y m : Nat) : Nat :=
  if m == 2 then (if isLeapYear y then 29 else 28)
  else if m == 4 || m == 6 || m == 9 || m == 11 then 30
  else 31

/-- Successor day in the Gregorian calendar. -/
def nextDay (d : PyDate) : PyDate :=
  if d.day < daysInMonth d.year d.month then ⟨d.year, d.month, d.day + 1⟩
  else if d.month < 12 then ⟨d.year, d.month + 1, 1⟩
  else ⟨d.year + 1, 1, 1⟩

/-- `d + timedelta(days := n)` for a non-negative number of days. -/
def addDays (d : PyDate) : Nat → PyDate
  | 0 => d
  | n + 1 => addDays (nextDay d) n

/-- Row of the `contacts` table (`src/database/models.py`, class
`Contact`).  `birthday` is nullable (`Date, nullable=True`); `user_id`
references the owning user.  The table declares BOTH a global
`unique=True` on `email` and `UniqueConstraint("email", "user_id")`. -/
structure Contact where
  id : Nat
  first_name : String
  last_name : String
  email : String
  phone_number : String
  birthday : Option PyDate
  additional_info : Option String
  user_id : Nat
deriving DecidableEq, Repr

/-- Request body `ContactBase` from `src/schemas.py`. -/
structure ContactBase where
  first_name : String
  last_name : String
  email : String
  phone_number : String
  birthday : Option PyDate
  additional_info : Option String
deriving DecidableEq, Repr

/-- `b.isPrefixOf h` on character lists (needle first). -/
def beginsWith : List Char → List Char → Bool
  | [], _ => true
  | _ :: _, [] => false
  | a :: as, b :: bs => a == b && beginsWith as bs

/-- Does `hay` contain `ned` as a contiguous subsequence? -/
def containsSeq (ned : List Char) : List Char → Bool
  | [] => beginsWith ned []
  | h :: t => beginsWith ned (h :: t) || containsSeq ned t

/-- SQL `field LIKE '%pat%'` (substring match, case-sensitive as under
the default collation). -/
def strLike (field pat : String) : Bool :=
  containsSeq pat.toList field.toList

namespace ContactRepository

/-- One optional filter of `get_contacts`
(`src/repository/contacts.py` lines 48-55): the `LIKE` clause is
appended only when the Python string is truthy (`if first_name:`), so
`None` and the empty string both impose no restriction. -/
def optLike (field : String) (filt : Option String) : Bool :=
  match filt with
  | none => true
  | some s => if s == "" then true else strLike field s

/-- `ContactRepository.get_contacts` (`src/repository/contacts.py`
lines 24-67): filter by owner, AND together the truthy filters, then
apply OFFSET `skip` and LIMIT `limit`. -/
def get_contacts (db : List Contact) (user : User) (skip limit : Nat)
    (first_name last_name email : Option String) : List Contact :=
  ((db.filter (fun c =>
      c.user_id == user.id
      && optLike c.first_name first_name
      && optLike c.last_name last_name
      && optLike c.email email)).drop skip).take limit

/-- `ContactRepository.get_contact_by_id` (lines 69-82): lookup by
`(id, user)`; `scalar_one_or_none` on the primary-key filter. -/
def get_contact_by_id (db : List Contact) (contact_id : Nat) (user : User) :
    Option Contact :=
  db.find? (fun c => c.id == contact_id && c.user_id == user.id)

/-- Outcome of an INSERT on the `contacts` table. -/
inductive CreateContactResult where
  | created (c : Contact)
  | integrityError
deriving DecidableEq, Repr

/-- The constraints declared on the `contacts` table
(`src/database/models.py` lines 38-56): primary key `id`, the
column-level `unique=True` on `email`, and
`UniqueConstraint("email", "user_id", name := "unique_email_user")`. -/
def contactInsertViolates (db : List Contact) (c : Contact) : Bool :=
  db.any (fun x => x.id == c.id)
  || db.any (fun x => x.email == c.email)
  || db.any (fun x => x.email == c.email && x.user_id == c.user_id)

/-- `ContactRepository.create_contact` (lines 84-100): build a `Contact`
from the body with `user` as owner and commit; the commit raises
`IntegrityError` when a table constraint is violated.  `newId` is the
autogenerated primary key. -/
def create_contact (db : List Contact) (body : ContactBase) (user : User)
    (newId : Nat) : CreateContactResult × List Contact :=
  let c : Contact :=
    { id := newId
      first_name := body.first_name
      last_name := body.last_name
      email := body.email
      phone_number := body.phone_number
      birthday := body.birthday
      additional_info := body.additional_info
      user_id := user.id }
  if contactInsertViolates db c then (.integrityError, db)
  else (.created c, db ++ [c])

/-- `ContactRepository.update_contact` (lines 102-127): fetch by
`(id, user)`; when found, overwrite the six body fields and commit. -/
def update_contact (db : List Contact) (contact_id : Nat)
    (body : ContactBase) (user : User) : Option Contact × List Contact :=
  match get_contact_by_id db contact_id user with
  | none => (none, db)
  | some c =>
    let c' : Contact :=
      { c with
        first_name := body.first_name
        last_name := body.last_name
        birthday := body.birthday
        additional_info := body.additional_info
        email := body.email
        phone_number := body.phone_number }
    (some c',
     db.map (fun x => if x.id == contact_id && x.user_id == user.id then
        { x with
          first_name := body.first_name
          last_name := body.last_name
          birthday := body.birthday
          additional_info := body.additional_info
          email := body.email
          phone_number := body.phone_number }
      else x))

/-- `ContactRepository.remove_contact` (lines 129-145): fetch by
`(id, user)`; when found, delete the row. -/
def remove_contact (db : List Contact) (contact_id : Nat) (user : User) :
    Option Contact × List Contact :=
  match get_contact_by_id db contact_id user with
  | none => (none, db)
  | some c =>
    (some c, db.filter (fun x => !(x.id == contact_id && x.user_id == user.id)))

/-- Same-year branch predicate of `get_upcoming_birthdays`
(`src/repository/contacts.py` lines 167-182): the `or_` of the three
`and_` clauses over `extract month/day` of the birthday. -/
def birthdayMatchSameYear (today target b : PyDate) : Bool :=
  (b.month == today.month && b.day >= today.day)
  || (b.month == target.month && b.day <= target.day)
  || (b.month > today.month && b.month < target.month)

/-- Year-wrap branch predicate of `get_upcoming_birthdays`
(lines 186-205): the `or_` of the four clauses. -/
def birthdayMatchWrap (today target b : PyDate) : Bool :=
  (b.month == today.month && b.day >= today.day)
  || (b.month > today.month)
  || (b.month == target.month && b.day <= target.day)
  || (b.month < target.month)

/-- `ContactRepository.get_upcoming_birthdays` (lines 147-209).
`today` stands for `date.today()`; `target_date = today +
timedelta(days := days)`.  A NULL `birthday` never satisfies the SQL
comparisons, so such rows are excluded.  NOTE: the same-year branch
filters by `user` (`filter_by(user=user)`, line 166) but the year-wrap
branch (line 186) builds `select(Contact).filter(...)` with no owner
filter at all. -/
def get_upcoming_birthdays (db : List Contact) (user : User)
    (today : PyDate) (days : Nat) : List Contact :=
  let target := addDays today days
  if target.year == today.year then
    db.filter (fun c =>
      c.user_id == user.id
      && (match c.birthday with
          | none => false
          | some b => birthdayMatchSameYear today target b))
  else
    db.filter (fun c =>
      match c.birthday with
      | none => false
      | some b => birthdayMatchWrap today target b)

end ContactRepository

namespace UserRepository

/-- `UserRepository.get_user_by_id` (`src/repository/users.py` lines
25-37): `filter_by(id=user_id)` then `scalar_one_or_none`; `id` is the
primary key, so at most one row matches. -/
def get_user_by_id (db : List User) (user_id : Nat) : Option User :=
  db.find? (fun u => u.id == user_id)

/-- `UserRepository.get_user_by_username` (lines 39-51); `username`
carries a `unique=True` constraint. -/
def get_user_by_username (db : List User) (username : String) : Option User :=
  db.find? (fun u => u.username == username)

/-- `UserRepository.get_user_by_email` (lines 53-65); `email` carries a
`unique=True` constraint. -/
def get_user_by_email (db : List User) (email : String) : Option User :=
  db.find? (fun u => u.email == email)

/-- `UserRepository.reset_password` (lines 88-106): fetch by id; if the
user exists overwrite `hashed_password` and commit, returning the
updated user; otherwise return `None` with the store untouched. -/
def reset_password (db : List User) (user_id : Nat) (password : String) :
    Option User × List User :=
  match get_user_by_id db user_id with
  | none => (none, db)
  | some u =>
    (some { u with hashed_password := password },
     db.map (fun x => if x.id == user_id then
        { x with hashed_password := password } else x))

/-- `UserRepository.refresh_token` (lines 108-126): fetch by id; if the
user exists overwrite the stored `refresh_token` and commit, returning
the updated user; otherwise return `None` with the store untouched. -/
def refresh_token (db : List User) (user_id : Nat) (tok : String) :
    Option User × List User :=
  match get_user_by_id db user_id with
  | none => (none, db)
  | some u =>
    (some { u with refresh_token := some tok },
     db.map (fun x => if x.id == user_id then
        { x with refresh_token := some tok } else x))

/-- Outcome of `UserRepository.update_avatar_url`. -/
inductive AvatarResult where
  | updated (u : User)
  | attributeError
deriving DecidableEq, Repr

/-- `UserRepository.update_avatar_url` (lines 142-157): fetch by email
and assign `user.avatar = url` WITHOUT checking for `None` first — on a
missing email the assignment on `None` raises `AttributeError` before
anything is written. -/
def update_avatar_url (db : List User) (email url : String) :
    AvatarResult × List User :=
  match get_user_by_email db email with
  | none => (.attributeError, db)
  | some u =>
    (.updated { u with avatar := some url },
     db.map (fun x => if x.email == email then
        { x with avatar := some url } else x))

end UserRepository

/-- Application settings read from the environment
(`src/conf/config.py`, used by `src/services/auth.py`): the JWT signing
secret and algorithm plus the default token TTLs. -/
structure Settings where
  JWT_SECRET : String
  JWT_ALGORITHM : String
  JWT_EXPIRATION_SECONDS : Int
  REFRESH_TOKEN_EXPIRE_MINUTES : Int
deriving DecidableEq, Repr

/-- Claim set produced by `create_token` / `create_email_token` before
signing.  `data` is the caller's dict (e.g. `{"sub": username}` or
`{"sub": email, "password": pw}`), which at every call site of the app
contains none of the reserved keys, so `to_encode.update({...})` adds
`exp`/`iat` (and for `create_token` the `token_type` tag) alongside it.
Timestamps are seconds. -/
structure EncodedPayload where
  data : List (String × String)
  iat : Int
  exp : Int
  token_type : Option String
deriving DecidableEq, Repr

/-- Result of `jwt.encode(to_encode, settings.JWT_SECRET,
algorithm=settings.JWT_ALGORITHM)`: the payload together with the
secret and algorithm it was signed with. -/
structure SignedToken where
  payload : EncodedPayload
  secret : String
  alg : String
deriving DecidableEq, Repr

/-- `create_token` (`src/services/auth.py` lines 31-41): copy the data,
set `exp := now + expires_delta`, `iat := now` and the `token_type`
tag, and sign with the process-wide secret and algorithm.  `now` stands
for `datetime.now(UTC)` and `expires_delta` for the `timedelta` in
seconds. -/
def create_token (data : List (String × String)) (now expires_delta : Int)
    (token_type : String) (s : Settings) : SignedToken :=
  { payload :=
      { data := data
        iat := now
        exp := now + expires_delta
        token_type := some token_type }
    secret := s.JWT_SECRET
    alg := s.JWT_ALGORITHM }

/-- `create_email_token` (`src/services/auth.py` lines 93-98), used for
both email-confirmation and password-reset links: same copy-update-sign
shape as `create_token` but with a fixed `timedelta(days := 7)` expiry
and no `token_type` tag.  Both `datetime.now(UTC)` calls in the body
are modelled by the single instant `now`. -/
def create_email_token (data : List (String × String)) (now : Int)
    (s : Settings) : SignedToken :=
  { payload :=
      { data := data
        iat := now
        exp := now + 7 * 86400
        token_type := none }
    secret := s.JWT_SECRET
    alg := s.JWT_ALGORITHM }

/-- A bearer token as seen by `jwt.decode`.  `raw` is the wire string
(used by `verify_refresh_token` to compare against the stored token);
`wellFormed`, `sigValid` and `unexpired` abstract the three ways
`jwt.decode(token, JWT_SECRET, algorithms=[JWT_ALGORITHM])` can raise a
`JWTError` (malformed token, bad signature, `exp` in the past).  `sub`
and `token_type` model the payload dict: `none` = key absent,
`some none` = key present with JSON null, `some (some s)` = string. -/
structure RawToken where
  raw : String
  wellFormed : Bool
  sigValid : Bool
  unexpired : Bool
  sub : Option (Option String)
  token_type : Option (Option String)
deriving DecidableEq, Repr

/-- `jwt.decode` succeeds (raises no `JWTError`). -/
def decodeOk (t : RawToken) : Bool :=
  t.wellFormed && t.sigValid && t.unexpired

/-- Outcome of `get_current_user`. -/
inductive CurrentUserResult where
  | ok (u : User)
  | unauthorized
  | keyError
deriving DecidableEq, Repr

/-- `get_current_user` (`src/services/auth.py` lines 64-90): decode the
bearer token (`JWTError` → 401); read `payload["sub"]` and
`payload["token_type"]` with bracket access, so a payload missing either
key raises `KeyError`, which the `except JWTError` clause does NOT
catch; 401 when the subject is null or the tag differs from
`"access"`; then look the username up, 401 when no such user. -/
def get_current_user (db : List User) (t : RawToken) : CurrentUserResult :=
  if !decodeOk t then .unauthorized
  else
    match t.sub, t.token_type with
    | none, _ => .keyError
    | some _, none => .keyError
    | some subv, some ttv =>
      if subv == none || ttv != some "access" then .unauthorized
      else
        match UserRepository.get_user_by_username db (subv.getD "") with
        | none => .unauthorized
        | some u => .ok u

/-- Outcome of a role gate (`Depends` wrapper around
`get_current_user`): the resolved user, or HTTP 403. -/
inductive GateResult where
  | ok (u : User)
  | forbidden
deriving DecidableEq, Repr

/-- `get_current_moderator_user` (`src/services/auth.py` lines
129-132): 403 unless `current_user.role` is in
`[UserRole.MODERATOR, UserRole.ADMIN]`; otherwise the user is returned
unchanged. -/
def get_current_moderator_user (current_user : User) : GateResult :=
  if !(current_user.role == .moderator || current_user.role == .admin) then
    .forbidden
  else .ok current_user

/-- `get_current_admin_user` (lines 135-138): 403 unless the role is
`UserRole.ADMIN`. -/
def get_current_admin_user (current_user : User) : GateResult :=
  if current_user.role != .admin then .forbidden
  else .ok current_user

/-- Outcome of `verify_refresh_token`. -/
inductive VerifyRefreshResult where
  | found (u : User)
  | nothing
  | attributeError
deriving DecidableEq, Repr

/-- `verify_refresh_token` (`src/services/auth.py` lines 141-159):
decode (any `JWTError` is caught → `None`); read the claims with
`payload.get`, so an absent key yields `None` rather than raising;
return `None` when the subject is missing/null or the tag differs from
`"refresh"`.  The code then runs
`db.query(User).filter(User.username == username, User.refresh_token ==
refresh_token).first()` — but `User` here is the **Pydantic schema**
`src.schemas.User` (imported at line 14), not the ORM model, and the
session is an `AsyncSession` (which has no `.query`); evaluating this
expression raises `AttributeError`, which `except JWTError` does not
catch.  So every token that passes validation reaches this uncaught
exception instead of the user lookup. -/
def verify_refresh_token (db : List User) (t : RawToken) :
    VerifyRefreshResult :=
  if !decodeOk t then .nothing
  else
    let username : Option String := t.sub.join
    let ttype : Option String := t.token_type.join
    if username == none || ttype != some "refresh" then .nothing
    else .attributeError

/-! Concrete fixtures used to evaluate the model on explicit inputs. -/

/-- A confirmed user with role `user` and stored refresh token "tok1". -/
def fixtureUser1 : User :=
  ⟨1, "alice", "alice@x.y", "h1", none, true, .user, some "tok1"⟩

/-- A second, distinct user. -/
def fixtureUser2 : User :=
  ⟨2, "bob", "bob@x.y", "h2", none, true, .user, none⟩

/-- A user with role `moderator`. -/
def fixtureModerator : User :=
  ⟨3, "mo", "mo@x.y", "h3", none, true, .moderator, none⟩

/-- Contact of `fixtureUser1` with birthday January 2. -/
def cJan2 : Contact :=
  ⟨10, "Jan", "Second", "jan@x.y", "1", some ⟨2000, 1, 2⟩, none, 1⟩

/-- Contact of `fixtureUser1` with birthday June 1. -/
def cJun1 : Contact :=
  ⟨11, "June", "First", "june@x.y", "2", some ⟨2000, 6, 1⟩, none, 1⟩

/-- Contact of `fixtureUser2` (a FOREIGN user) with birthday January 2. -/
def cJan2Foreign : Contact :=
  ⟨12, "Jan", "Foreign", "janf@x.y", "3", some ⟨2000, 1, 2⟩, none, 2⟩

/-- Contact of `fixtureUser1` with birthday March 5. -/
def cMar5 : Contact :=
  ⟨20, "Mar", "Fifth", "mar5@x.y", "4", some ⟨2000, 3, 5⟩, none, 1⟩

/-- Contact of `fixtureUser1` with birthday March 20. -/
def cMar20 : Contact :=
  ⟨21, "Mar", "Twentieth", "mar20@x.y", "5", some ⟨2000, 3, 20⟩, none, 1⟩

/-- A contact body with email "same@x.y". -/
def bodySame : ContactBase :=
  ⟨"A", "B", "same@x.y", "6", none, none⟩

/-- The row created from `bodySame` for `fixtureUser1` with id 1. -/
def contactSame1 : Contact :=
  ⟨1, "A", "B", "same@x.y", "6", none, none, 1⟩

/-- A refresh token that passes every JWT validation step and whose wire
string "tok1" equals the one stored on `fixtureUser1`. -/
def tokenRefreshOk : RawToken :=
  ⟨"tok1", true, true, true, some (some "alice"), some (some "refresh")⟩

/-- A refresh token with an invalid signature. -/
def tokenBadSig : RawToken :=
  ⟨"bad", true, false, true, some (some "alice"), some (some "refresh")⟩

/-- A validly signed, unexpired token whose payload carries `sub` but
has NO `token_type` key at all. -/
def tokenNoType : RawToken :=
  ⟨"t2", true, true, true, some (some "alice"), none⟩

/-- A validly signed, unexpired access token for subject "alice". -/
def tokenAccessOk : RawToken :=
  ⟨"t3", true, true, true, some (some "alice"), some (some "access")⟩

/-! Theorems settling the claims. -/

/-- Claim C1: the claim says every contact read, returned or modified by
a contact-store operation invoked with an owning user is owned by that
user, in particular for `upcomingBirthdays` when the window crosses the
year boundary.  The year-wrap branch of `get_upcoming_birthdays`
(`src/repository/contacts.py` line 186) omits the owner filter, so with
owner `fixtureUser1`, today 2024-12-28 and a 7-day window, a matching
contact owned by the OTHER user `fixtureUser2` is returned. -/
theorem wrap_branch_returns_foreign_contact :
    ContactRepository.get_upcoming_birthdays [cJan2Foreign] fixtureUser1
        ⟨2024, 12, 28⟩ 7 = [cJan2Foreign]
    ∧ cJan2Foreign.user_id ≠ fixtureUser1.id := by
  decide

/-- Claim C2: the claim says that with today 2024-03-01 and a 7-day
window (target 2024-03-08, same year) a contact with birthday March 5
is included and one with March 20 is excluded.  Evaluating the
same-year branch shows BOTH are included: the first disjunct
(`month == today.month AND day >= today.day`) matches every March day
from the 1st on, so March 20 is returned as well. -/
theorem same_year_branch_includes_march_20 :
    addDays ⟨2024, 3, 1⟩ 7 = ⟨2024, 3, 8⟩
    ∧ ContactRepository.get_upcoming_birthdays [cMar5, cMar20] fixtureUser1
        ⟨2024, 3, 1⟩ 7 = [cMar5, cMar20] := by
  decide

/-- Claim C3: the claim says contact email uniqueness is per owner, so
the same email under two different users succeeds for both.  The
`contacts` table declares a column-level `unique=True` on `email`
besides the composite `UniqueConstraint("email", "user_id")`: creating
"same@x.y" for `fixtureUser1` succeeds, re-creating it for the SAME
user fails (as the claim says), but creating it for the DIFFERENT user
`fixtureUser2` also fails with `IntegrityError`. -/
theorem contact_email_unique_globally :
    (ContactRepository.create_contact [] bodySame fixtureUser1 1).1
        = .created contactSame1
    ∧ (ContactRepository.create_contact
        (ContactRepository.create_contact [] bodySame fixtureUser1 1).2
        bodySame fixtureUser1 2).1 = .integrityError
    ∧ (ContactRepository.create_contact
        (ContactRepository.create_contact [] bodySame fixtureUser1 1).2
        bodySame fixtureUser2 2).1 = .integrityError := by
  decide

/-- Claim C5: the claim says `verify_refresh_token` returns the user
when every validation step passes and the stored refresh token equals
the presented one, returns `None` on failure, and never raises.  On a
token passing every step and exactly equal to the stored token it
instead reaches `db.query(User)...` with the Pydantic class
`src.schemas.User` on an `AsyncSession`, raising an uncaught
`AttributeError`; only the pure validation failures return `None`. -/
theorem verify_refresh_token_uncaught_attribute_error :
    verify_refresh_token [fixtureUser1] tokenRefreshOk = .attributeError
    ∧ fixtureUser1.username = "alice"
    ∧ fixtureUser1.refresh_token = some tokenRefreshOk.raw
    ∧ verify_refresh_token [fixtureUser1] tokenBadSig = .nothing := by
  decide

/-- Claim C6 counterexample: a validly signed, unexpired token whose
payload carries `sub` ("alice", a user that exists) but no `token_type`
key.  The claim requires every such resolution to end in `Unauthorized`
or the resolved user; the code raises an uncaught `KeyError`
(`payload["token_type"]`), which is neither. -/
theorem get_current_user_missing_key_crashes :
    get_current_user [fixtureUser1] tokenNoType = .keyError
    ∧ CurrentUserResult.keyError ≠ .unauthorized
    ∧ CurrentUserResult.keyError ≠ .ok fixtureUser1 := by
  decide

/-- Claim C4 counterexample: the claim says `update_avatar_url` on a
missing target is a no-op that reports not-found and raises no other
error.  On an empty user table the code runs `user.avatar = url` with
`user = None`, raising `AttributeError` instead of returning `None`. -/
theorem update_avatar_url_missing_user_raises :
    UserRepository.update_avatar_url [] "a@b.c" "url"
      = (.attributeError, []) := by
  decide

/-- Claim C4 (amended): `reset_password` and `refresh_token` on a
missing user id return `None` and leave the store unchanged;
`update_avatar_url` on a missing email raises `AttributeError` and
leaves the store unchanged; on an existing target each operation
returns the updated record and rewrites exactly the matching rows
(every row with a different key is unchanged, and the matching row
changes only in the one field). -/
theorem user_mutations_touch_one_record :
    (∀ (db : List User) (uid : Nat) (pw : String),
        UserRepository.get_user_by_id db uid = none →
        UserRepository.reset_password db uid pw = (none, db))
    ∧ (∀ (db : List User) (uid : Nat) (tok : String),
        UserRepository.get_user_by_id db uid = none →
        UserRepository.refresh_token db uid tok = (none, db))
    ∧ (∀ (db : List User) (em url : String),
        UserRepository.get_user_by_email db em = none →
        UserRepository.update_avatar_url db em url = (.attributeError, db))
    ∧ (∀ (db : List User) (uid : Nat) (pw : String) (u : User),
        UserRepository.get_user_by_id db uid = some u →
        (UserRepository.reset_password db uid pw).1
            = some { u with hashed_password := pw }
        ∧ (UserRepository.reset_password db uid pw).2.length = db.length
        ∧ ∀ (i : Nat) (h1 : i < db.length)
            (h2 : i < (UserRepository.reset_password db uid pw).2.length),
            (UserRepository.reset_password db uid pw).2.get ⟨i, h2⟩
              = (if (db.get ⟨i, h1⟩).id = uid
                 then { db.get ⟨i, h1⟩ with hashed_password := pw }
                 else db.get ⟨i, h1⟩))
    ∧ (∀ (db : List User) (uid : Nat) (tok : String) (u : User),
        UserRepository.get_user_by_id db uid = some u →
        (UserRepository.refresh_token db uid tok).1
            = some { u with refresh_token := some tok }
        ∧ (UserRepository.refresh_token db uid tok).2.length = db.length
        ∧ ∀ (i : Nat) (h1 : i < db.length)
            (h2 : i < (UserRepository.refresh_token db uid tok).2.length),
            (UserRepository.refresh_token db uid tok).2.get ⟨i, h2⟩
              = (if (db.get ⟨i, h1⟩).id = uid
                 then { db.get ⟨i, h1⟩ with refresh_token := some tok }
                 else db.get ⟨i, h1⟩))
    ∧ (∀ (db : List User) (em url : String) (u : User),
        UserRepository.get_user_by_email db em = some u →
        (UserRepository.update_avatar_url db em url).1
            = .updated { u with avatar := some url }
        ∧ (UserRepository.update_avatar_url db em url).2.length = db.length
        ∧ ∀ (i : Nat) (h1 : i < db.length)
            (h2 : i < (UserRepository.update_avatar_url db em url).2.length),
            (UserRepository.update_avatar_url db em url).2.get ⟨i, h2⟩
              = (if (db.get ⟨i, h1⟩).email = em
                 then { db.get ⟨i, h1⟩ with avatar := some url }
                 else db.get ⟨i, h1⟩)) := by
  refine ⟨?_, ?_, ?_, ?_, ?_, ?_⟩
  · intro db uid pw h
    simp [UserRepository.reset_password, h]
  · intro db uid tok h
    simp [UserRepository.refresh_token, h]
  · intro db em url h
    simp [UserRepository.update_avatar_url, h]
  · intro db uid pw u h
    refine ⟨by simp [UserRepository.reset_password, h], ?_, ?_⟩
    · simp [UserRepository.reset_password, h]
    · intro i h1 h2
      simp [UserRepository.reset_password, h, List.get_eq_getElem,
        List.getElem_map, beq_iff_eq]
  · intro db uid tok u h
    refine ⟨by simp [UserRepository.refresh_token, h], ?_, ?_⟩
    · simp [UserRepository.refresh_token, h]
    · intro i h1 h2
      simp [UserRepository.refresh_token, h, List.get_eq_getElem,
        List.getElem_map, beq_iff_eq]
  · intro db em url u h
    refine ⟨by simp [UserRepository.update_avatar_url, h], ?_, ?_⟩
    · simp [UserRepository.update_avatar_url, h]
    · intro i h1 h2
      simp [UserRepository.update_avatar_url, h, List.get_eq_getElem,
        List.getElem_map, beq_iff_eq]

/-- Claim C4 witness: the amended theorem applied to an empty store
(missing target) and to a one-user store (existing target). -/
theorem user_mutations_touch_one_record_witness :
    UserRepository.reset_password [] 5 "x" = (none, [])
    ∧ (UserRepository.reset_password [fixtureUser1] 1 "npw").1
        = some { fixtureUser1 with hashed_password := "npw" } :=
  ⟨user_mutations_touch_one_record.1 [] 5 "x" (by decide),
   (user_mutations_touch_one_record.2.2.2.1 [fixtureUser1] 1 "npw"
      fixtureUser1 (by decide)).1⟩

/-- Claim C6 (amended): current-user resolution fails `Unauthorized`
when the token fails JWT decoding (bad signature, malformed, expired),
when its subject claim is null, when its `token_type` claim differs
from "access", or when no user with the subject username exists; when a
validly decoded payload lacks the `sub` or `token_type` key entirely it
instead raises an uncaught `KeyError`; otherwise it returns the looked
up user. -/
theorem get_current_user_resolution :
    (∀ (db : List User) (t : RawToken),
        decodeOk t = false → get_current_user db t = .unauthorized)
    ∧ (∀ (db : List User) (t : RawToken),
        decodeOk t = true → t.sub = none → get_current_user db t = .keyError)
    ∧ (∀ (db : List User) (t : RawToken) (sv : Option String),
        decodeOk t = true → t.sub = some sv → t.token_type = none →
        get_current_user db t = .keyError)
    ∧ (∀ (db : List User) (t : RawToken) (sv tv : Option String),
        decodeOk t = true → t.sub = some sv → t.token_type = some tv →
        (sv = none ∨ tv ≠ some "access") →
        get_current_user db t = .unauthorized)
    ∧ (∀ (db : List User) (t : RawToken) (s : String),
        decodeOk t = true → t.sub = some (some s) →
        t.token_type = some (some "access") →
        UserRepository.get_user_by_username db s = none →
        get_current_user db t = .unauthorized)
    ∧ (∀ (db : List User) (t : RawToken) (s : String) (u : User),
        decodeOk t = true → t.sub = some (some s) →
        t.token_type = some (some "access") →
        UserRepository.get_user_by_username db s = some u →
        get_current_user db t = .ok u) := by
  refine ⟨?_, ?_, ?_, ?_, ?_, ?_⟩
  · intro db t h
    simp [get_current_user, h]
  · intro db t h hs
    simp [get_current_user, h, hs]
  · intro db t sv h hs ht
    simp [get_current_user, h, hs, ht]
  · intro db t sv tv h hs ht hor
    rcases hor with hn | hne
    · simp [get_current_user, h, hs, ht, hn]
    · cases hsv : sv with
      | none => simp [get_current_user, h, hs, ht, hsv]
      | some s =>
        have : (tv != some "access") = true := by
          simp [bne_iff_ne, hne]
        simp [get_current_user, h, hs, ht, hsv, this]
  · intro db t s h hs ht hu
    simp [get_current_user, h, hs, ht, hu]
  · intro db t s u h hs ht hu
    simp [get_current_user, h, hs, ht, hu]

/-- Claim C6 witness: the amended theorem applied to a valid access
token for "alice" against a store containing that user. -/
theorem get_current_user_resolution_witness :
    get_current_user [fixtureUser1] tokenAccessOk = .ok fixtureUser1 :=
  get_current_user_resolution.2.2.2.2.2 [fixtureUser1] tokenAccessOk
    "alice" fixtureUser1 rfl rfl rfl (by decide)

/-- Claim C7: for every resolved user, the moderator gate returns the
user unchanged exactly when the role is moderator or admin, the admin
gate exactly when the role is admin, and each gate otherwise fails with
`Forbidden` (HTTP 403). -/
theorem role_gates_exact :
    ∀ u : User,
      (get_current_moderator_user u = .ok u
          ↔ (u.role = .moderator ∨ u.role = .admin))
      ∧ (get_current_moderator_user u = .forbidden
          ↔ ¬(u.role = .moderator ∨ u.role = .admin))
      ∧ (get_current_admin_user u = .ok u ↔ u.role = .admin)
      ∧ (get_current_admin_user u = .forbidden ↔ u.role ≠ .admin) := by
  intro u
  rcases u with ⟨id, un, em, hp, av, cf, role, rt⟩
  cases role <;>
    simp [get_current_moderator_user, get_current_admin_user]

/-- Claim C7 witness: the gate theorem applied to a moderator-role user
(moderator gate succeeds) and a user-role user (admin gate forbids). -/
theorem role_gates_exact_witness :
    get_current_moderator_user fixtureModerator = .ok fixtureModerator
    ∧ get_current_admin_user fixtureUser1 = .forbidden :=
  ⟨(role_gates_exact fixtureModerator).1.mpr (Or.inl rfl),
   (role_gates_exact fixtureUser1).2.2.2.mpr (by decide)⟩

/-- Claim C8: in the year-wrap case of `get_upcoming_birthdays` a
contact with a birthday matches exactly when
`month = today.month ∧ day ≥ today.day`, or `month > today.month`, or
`month = target.month ∧ day ≤ target.day`, or `month < target.month`;
in particular with today 2024-12-28 and a 7-day window
(target 2025-01-04), a January 2 birthday matches and a June 1 birthday
does not. -/
theorem upcoming_birthdays_wrap_formula :
    (∀ (db : List Contact) (user : User) (today : PyDate) (days : Nat)
        (c : Contact),
        (addDays today days).year ≠ today.year →
        (c ∈ ContactRepository.get_upcoming_birthdays db user today days ↔
          c ∈ db ∧ ∃ b, c.birthday = some b ∧
            ((b.month = today.month ∧ b.day ≥ today.day)
             ∨ b.month > today.month
             ∨ (b.month = (addDays today days).month
                ∧ b.day ≤ (addDays today days).day)
             ∨ b.month < (addDays today days).month)))
    ∧ addDays ⟨2024, 12, 28⟩ 7 = ⟨2025, 1, 4⟩
    ∧ ContactRepository.get_upcoming_birthdays [cJan2, cJun1] fixtureUser1
        ⟨2024, 12, 28⟩ 7 = [cJan2] := by
  refine ⟨?_, by decide, by decide⟩
  intro db user today days c hyr
  have hcond : ((addDays today days).year == today.year) = false := by
    simp [hyr]
  rw [ContactRepository.get_upcoming_birthdays]
  simp only [hcond, Bool.false_eq_true, if_false, List.mem_filter]
  refine and_congr_right (fun _ => ?_)
  cases hb : c.birthday with
  | none => simp [hb]
  | some b =>
    simp [hb, ContactRepository.birthdayMatchWrap, decide_eq_true_eq,
      beq_iff_eq, Nat.lt_iff_add_one_le]
    omega

/-- Claim C8 witness: the wrap-formula theorem applied at today
2024-12-28, a 7-day window, and the January 2 contact. -/
theorem upcoming_birthdays_wrap_formula_witness :
    cJan2 ∈ ContactRepository.get_upcoming_birthdays [cJan2, cJun1]
      fixtureUser1 ⟨2024, 12, 28⟩ 7 :=
  (upcoming_birthdays_wrap_formula.1 [cJan2, cJun1] fixtureUser1
      ⟨2024, 12, 28⟩ 7 cJan2 (by decide)).mpr
    ⟨by decide, ⟨2000, 1, 2⟩, rfl, by decide⟩

/-- Claim C9: `create_token` embeds `iat` equal to the issue instant,
`exp` equal to the issue instant plus the given ttl, and the given type
tag; `create_email_token` (used for both email confirmation and
password reset) signs with the same process-wide secret and algorithm
and expires exactly 7 days (604800 seconds) after its issued-at. -/
theorem issued_token_claims :
    ∀ (data : List (String × String)) (now delta : Int) (ttype : String)
      (s : Settings),
      (create_token data now delta ttype s).payload.iat = now
      ∧ (create_token data now delta ttype s).payload.exp = now + delta
      ∧ (create_token data now delta ttype s).payload.token_type
          = some ttype
      ∧ (create_email_token data now s).payload.exp
          = (create_email_token data now s).payload.iat + 7 * 86400
      ∧ (create_email_token data now s).secret
          = (create_token data now delta ttype s).secret
      ∧ (create_email_token data now s).alg
          = (create_token data now delta ttype s).alg
      ∧ (create_token data now delta ttype s).secret = s.JWT_SECRET
      ∧ (create_token data now delta ttype s).alg = s.JWT_ALGORITHM := by
  intro data now delta ttype s
  exact ⟨rfl, rfl, rfl, rfl, rfl, rfl, rfl, rfl⟩

/-- Claim C9 witness: the issuance theorem applied at a concrete claim
set, instant, ttl, tag and settings. -/
theorem issued_token_claims_witness :
    (create_token [("sub", "alice")] 1000 3600 "access"
        ⟨"sec", "HS256", 3600, 10080⟩).payload.iat = 1000
    ∧ (create_token [("sub", "alice")] 1000 3600 "access"
        ⟨"sec", "HS256", 3600, 10080⟩).payload.exp = 1000 + 3600
    ∧ (create_token [("sub", "alice")] 1000 3600 "access"
        ⟨"sec", "HS256", 3600, 10080⟩).payload.token_type = some "access"
    ∧ (create_email_token [("sub", "alice")] 1000
        ⟨"sec", "HS256", 3600, 10080⟩).payload.exp
        = (create_email_token [("sub", "alice")] 1000
            ⟨"sec", "HS256", 3600, 10080⟩).payload.iat + 7 * 86400 :=
  let h := issued_token_claims [("sub", "alice")] 1000 3600 "access"
    ⟨"sec", "HS256", 3600, 10080⟩
  ⟨h.1, h.2.1, h.2.2.1, h.2.2.2.1⟩

/-- Claim C10: passing an empty string as the `first_name`, `last_name`
or `email` filter of `get_contacts` yields exactly the same result as
omitting the filter, because the `LIKE` clause is appended only when
the Python string is truthy. -/
theorem empty_filters_impose_nothing :
    ∀ (db : List Contact) (user : User) (skip limit : Nat)
      (fn ln em : Option String),
      ContactRepository.get_contacts db user skip limit (some "") ln em
          = ContactRepository.get_contacts db user skip limit none ln em
      ∧ ContactRepository.get_contacts db user skip limit fn (some "") em
          = ContactRepository.get_contacts db user skip limit fn none em
      ∧ ContactRepository.get_contacts db user skip limit fn ln (some "")
          = ContactRepository.get_contacts db user skip limit fn ln none := by
  intro db user skip limit fn ln em
  have h : ∀ f : String,
      ContactRepository.optLike f (some "") = ContactRepository.optLike f none := by
    intro f
    simp [ContactRepository.optLike]
  refine ⟨?_, ?_, ?_⟩ <;> simp only [ContactRepository.get_contacts, h]

/-- Claim C10 witness: the empty-filter theorem applied to a concrete
store, owner and pagination. -/
theorem empty_filters_impose_nothing_witness :
    ContactRepository.get_contacts [cMar5, cMar20] fixtureUser1 0 10
        (some "") none none
      = ContactRepository.get_contacts [cMar5, cMar20] fixtureUser1 0 10
        none none none :=
  (empty_filters_impose_nothing [cMar5, cMar20] fixtureUser1 0 10
    none none none).1

end Hw12
